import Mathlib

/-!
Shallow embedding of the fleet update orchestrator of
`qubes-core-admin-linux` (directory `vmupdate/`): the Fleet Coordinator
(`update_manager.py`), the VM Session (`qube_connection.py`) and the agent
CLI serialization (`agent/source/args.py`), together with theorems about
the specified properties.

Modelling conventions:
* byte strings and decoded text are lists of code points (`List Nat`);
* Python `int` is `Int`;
* the outcome of one remote command issued through
  `qubesadmin`'s `run_with_args` is a `CmdResult`: either captured
  stdout/stderr, a `CalledProcessError` carrying a return code, or some
  other raised exception;
* raising Python exceptions is `Except String`;
* the externally visible side effects of a session (commands issued in the
  qube, directory removal, shutdown) are recorded in a trace of `Action`s;
* keyword arguments forwarded by `run_agent(**kwargs)` to
  `run_entrypoint` are modelled by `AgentKwargs`, distinguishing the
  `log=loglevel` call the coordinator actually makes (which Python
  keyword binding rejects with a `TypeError`) from an `agent_args`
  keyword the signature would accept.
-/

namespace VMUpdate

/-- Python's `bytes.decode('ascii', errors='ignore')`: every byte below 0x80 becomes
the character with that code point, every other byte is dropped. -/
def decodeAsciiIgnore (bs : List Nat) : List Nat :=
  bs.filter (fun b => decide (b < 128))

/-- The line-break code points recognized by Python's `str.splitlines`. -/
def isBreak (c : Nat) : Bool :=
  c == 0x0a || c == 0x0b || c == 0x0c || c == 0x0d ||
  c == 0x1c || c == 0x1d || c == 0x1e || c == 0x85 ||
  c == 0x2028 || c == 0x2029

/-- Worker for `splitlines`; `cur` is the current line accumulated in
reverse. A trailing line break does not produce a final empty line, and
`"\r\n"` counts as a single break, as in Python. -/
def splitlinesGo : List Nat → List Nat → List (List Nat)
  | [], cur => if cur.isEmpty then [] else [cur.reverse]
  | [c], cur =>
    if isBreak c then [cur.reverse] else [(c :: cur).reverse]
  | c :: d :: rest, cur =>
    if c = 0x0d ∧ d = 0x0a then
      cur.reverse :: splitlinesGo rest []
    else if isBreak c then
      cur.reverse :: splitlinesGo (d :: rest) []
    else
      splitlinesGo (d :: rest) (c :: cur)

/-- Python's `str.splitlines`. -/
def splitlines (s : List Nat) : List (List Nat) :=
  splitlinesGo s []

/-- The printable-ASCII test `0x20 <= ord(c) <= 0x7e` used by
`QubeConnection._collect_output`. -/
def printable (c : Nat) : Bool :=
  decide (0x20 ≤ c) && decide (c ≤ 0x7e)

namespace QubeConnection

/-- Model of `QubeConnection._collect_output` (`qube_connection.py`, lines 163-175):
decode stdout and stderr leniently as ASCII, concatenate, split into lines
and, unless `force_color` is set, keep only printable ASCII characters in
each line. -/
def _collect_output (untrusted_stdout untrusted_stderr : List Nat)
    (force_color : Bool) : List (List Nat) :=
  let decoded :=
    decodeAsciiIgnore untrusted_stdout ++ decodeAsciiIgnore untrusted_stderr
  if !force_color then
    (splitlines decoded).map (fun line => line.filter printable)
  else
    splitlines decoded

end QubeConnection

/-- Outcome of one remote command issued through the qube's
command-execution channel (`qubesadmin`'s `run_with_args`): captured
stdout/stderr on success, a `CalledProcessError` carrying a return code and
the process output, or any other raised exception. -/
inductive CmdResult where
  | ok (untrusted_stdout untrusted_stderr : List Nat)
  | calledProcessError (returncode : Int) (output : List Nat)
  | exc (message : String)
deriving DecidableEq

namespace QubeConnection

/-- Model of `QubeConnection._run_shell_command_in_qube` (`qube_connection.py`,
lines 135-161): run the command; on success return code 0 with the
sanitized output; on `CalledProcessError` log it and return the error's
return code paired with the sanitized output of empty stdout and stderr;
any other exception propagates. -/
def _run_shell_command_in_qube (res : CmdResult) (force_color : Bool) :
    Except String (Int × List (List Nat)) :=
  match res with
  | CmdResult.ok o e => Except.ok (0, _collect_output o e force_color)
  | CmdResult.calledProcessError rc _ =>
      Except.ok (rc, _collect_output [] [] force_color)
  | CmdResult.exc m => Except.error m

end QubeConnection

/-- The agent argument namespace built by `argparse` from
`AgentArgs.add_arguments` (`agent/source/args.py`): option `log` plus the
three `store_true` flags, attribute names with `-` replaced by `_`. -/
structure AgentArgs where
  log : String
  no_refresh : Bool
  force_upgrade : Bool
  leave_obsolete : Bool
deriving DecidableEq

/-- Model of `AgentArgs.to_cli_args` (`agent/source/args.py`, lines 24-35): loop
over `DEFAULTS` in insertion order (`log`, `no-refresh`, `force-upgrade`,
`leave-obsolete`); the `store` option always contributes
`--log <value>`, each `store_true` flag contributes its `--` name when the
attribute is truthy. -/
def AgentArgs.to_cli_args (args : AgentArgs) : List String :=
  (["--log", args.log]) ++
  (if args.no_refresh then ["--no-refresh"] else []) ++
  (if args.force_upgrade then ["--force-upgrade"] else []) ++
  (if args.leave_obsolete then ["--leave-obsolete"] else [])

/-- Externally visible side effects of a session, in order. -/
inductive Action where
  | transferAgent
  | runCommand (argv : List String)
  | removeDir
  | shutdownVM
deriving DecidableEq

namespace QubeConnection

/-- Model of `QubeConnection.run_entrypoint` (`qube_connection.py`, lines 108-133):
first `chmod u+x` the entrypoint, then invoke
`[entrypoint_path, *AgentArgs.to_cli_args(agent_args)]`; the step's exit
code is the max of the two return codes and the outputs are concatenated.
Returns the trace of issued commands together with the result. -/
def run_entrypoint (entrypoint_path : String) (force_color : Bool)
    (agent_args : AgentArgs) (chmodRes entryRes : CmdResult) :
    List Action × Except String (Int × List (List Nat)) :=
  let chmodCmd := ["chmod", "u+x", entrypoint_path]
  match _run_shell_command_in_qube chmodRes force_color with
  | Except.error e => ([Action.runCommand chmodCmd], Except.error e)
  | Except.ok (exit_code, output) =>
    let entryCmd := entrypoint_path :: AgentArgs.to_cli_args agent_args
    match _run_shell_command_in_qube entryRes force_color with
    | Except.error e =>
        ([Action.runCommand chmodCmd, Action.runCommand entryCmd],
         Except.error e)
    | Except.ok (exit_code2, output2) =>
        ([Action.runCommand chmodCmd, Action.runCommand entryCmd],
         Except.ok (max exit_code exit_code2, output ++ output2))

/-- Model of `QubeConnection.__exit__` (`qube_connection.py`, lines 56-69): when
`cleanup` is set, issue `rm -r` of the working directory through
`_run_shell_command_in_qube` (which swallows `CalledProcessError` and
discards the returned code; any other exception aborts the rest of the
teardown and propagates).  Then, if the qube is running and was not
initially running, shut it down.  Returns the teardown trace and the
exception it raises, if any. -/
def qubeConnectionExit (cleanup was_running running_at_exit : Bool)
    (rmRes : CmdResult) : List Action × Option String :=
  let shutdownActs :=
    if running_at_exit && !was_running then [Action.shutdownVM] else []
  if cleanup then
    match rmRes with
    | CmdResult.exc m => ([Action.removeDir], some m)
    | _ => (Action.removeDir :: shutdownActs, none)
  else
    (shutdownActs, none)

end QubeConnection

/-- Python keyword arguments forwarded by `UpdateAgentManager.run_agent`
(`update_manager.py`, line 141: `def run_agent(self, return_output,
**kwargs)`) to `QubeConnection.run_entrypoint` (lines 155-156:
`qc.run_entrypoint(dest_agent, self.force_color, **kwargs)`).
`run_entrypoint` declares `(self, entrypoint_path, force_color,
agent_args)`, so keyword binding accepts exactly the keyword
`agent_args`; any other keyword — in particular the `log=loglevel` that
`update_qube` actually passes (`update_manager.py`, lines 106-107) —
raises a `TypeError` at the call site, before any command is built. -/
inductive AgentKwargs where
  | log (loglevel : String)
  | agent_args (args : AgentArgs)

/-- Message of the `TypeError` raised when `run_entrypoint` is called with
the keyword `log` instead of its declared `agent_args` parameter. -/
def runEntrypointKwargError : String :=
  "TypeError: run_entrypoint() got an unexpected keyword argument log"

/-- The behaviour of the environment during one session: what
`qube.is_running()` reports at enter and at exit, whether
`transfer_agent` raises, and the outcomes of the three remote commands
(`chmod`, the entrypoint invocation, and the teardown `rm -r`). -/
structure SessionEnv where
  was_running : Bool
  running_at_exit : Bool
  transferExc : Option String
  chmodRes : CmdResult
  entryRes : CmdResult
  rmRes : CmdResult

/-- The per-target result payload: either the full list of captured output
lines or a short status string (`update_manager.py`, lines 169-174). -/
inductive Payload where
  | lines (ls : List (List Nat))
  | status (s : String)
deriving DecidableEq

/-- Value of `dest_agent` in `UpdateAgentManager.run_agent`:
`os.path.join(WORKDIR, ENTRYPOINT)`. -/
def entrypointPath : String := "/run/qubes-update/agent/entrypoint.py"

/-- The terse status string of `UpdateAgentManager.run_agent`
(`update_manager.py`, lines 172-174). -/
def statusOf (exit_code : Int) (log_path : String) : String :=
  if exit_code = 0 then "OK"
  else "ERROR (exit code " ++ toString exit_code ++ ", details in "
       ++ log_path ++ ")"

/-- The body of the `with QubeConnection(...)` block in
`UpdateAgentManager.run_agent` (`update_manager.py`, lines 148-174):
transfer the agent (whose failure raises), then call
`qc.run_entrypoint(dest_agent, self.force_color, **kwargs)`.  With the
`log=loglevel` kwargs the coordinator passes, that call raises `TypeError`
before any command is issued in the qube; with an `agent_args` keyword the
entrypoint runs and the returned payload is the full output if
`return_output` is set and the output list is truthy (non-empty), else
the terse status string of lines 169-174.
`runAgentEntry` is the part of the body from the `run_entrypoint` call to
the construction of `return_data` (reached only when the call binds, i.e.
with an `agent_args` keyword); `runAgentBody` is the whole body. -/
def runAgentEntry (return_output force_color : Bool) (args : AgentArgs)
    (env : SessionEnv) (log_path : String) :
    List Action × Except String (Int × Payload) :=
  match QubeConnection.run_entrypoint entrypointPath force_color args
      env.chmodRes env.entryRes with
  | (tr, Except.error e) => (Action.transferAgent :: tr, Except.error e)
  | (tr, Except.ok (exit_code, output)) =>
    let return_data :=
      if return_output && !output.isEmpty then Payload.lines output
      else Payload.status (statusOf exit_code log_path)
    (Action.transferAgent :: tr, Except.ok (exit_code, return_data))

def runAgentBody (return_output force_color : Bool) (kwargs : AgentKwargs)
    (env : SessionEnv) (log_path : String) :
    List Action × Except String (Int × Payload) :=
  match env.transferExc with
  | some e => ([Action.transferAgent], Except.error e)
  | none =>
    match kwargs with
    | AgentKwargs.log _ =>
        ([Action.transferAgent], Except.error runEntrypointKwargError)
    | AgentKwargs.agent_args args =>
        runAgentEntry return_output force_color args env log_path

/-- Model of `UpdateAgentManager.run_agent` (`update_manager.py`, lines 141-176):
the body runs inside the `with` block, so `QubeConnection.__exit__` runs on
every path; if the body raised, its exception resumes after teardown
unless teardown itself raised. -/
def run_agent (return_output force_color cleanup : Bool)
    (kwargs : AgentKwargs) (env : SessionEnv) (log_path : String) :
    List Action × Except String (Int × Payload) :=
  let body := runAgentBody return_output force_color kwargs env log_path
  match QubeConnection.qubeConnectionExit cleanup env.was_running
      env.running_at_exit env.rmRes with
  | (exitTr, some e2) => (body.1 ++ exitTr, Except.error e2)
  | (exitTr, none) => (body.1 ++ exitTr, body.2)

/-- Model of `update_qube` (`update_manager.py`, lines 82-110): resolve the qube
name among the live domains — a `KeyError` yields the triple
`(qname, 2, "ERROR (qube not found)")` without constructing any session —
then call `runner.run_agent(return_output=show_output, log=loglevel)`
exactly as lines 106-107 do; any exception is caught and converted to
`(qname, 1, "ERROR (exception ...)")`.  The function always returns a
triple, paired here with the session trace (empty when no session ran). -/
def update_qube (domains : String → Option SessionEnv)
    (show_output force_color cleanup : Bool) (loglevel : String)
    (log_path qname : String) :
    List Action × (String × Int × Payload) :=
  match domains qname with
  | none => ([], (qname, 2, Payload.status "ERROR (qube not found)"))
  | some env =>
    match run_agent show_output force_color cleanup
        (AgentKwargs.log loglevel) env log_path with
    | (tr, Except.error e) =>
        (tr, (qname, 1, Payload.status ("ERROR (exception " ++ e ++ ")")))
    | (tr, Except.ok (exit_code, result)) => (tr, (qname, exit_code, result))

namespace UpdateManager

/-- Model of `UpdateManager.collect_result` (`update_manager.py`, lines 66-79): the
aggregate exit code is the max of the current one and the collected
result's exit code. -/
def collect_result (exit_code : Int)
    (result_tuple : String × Int × Payload) : Int :=
  max exit_code result_tuple.2.1

/-- Model of `UpdateManager.run` (`update_manager.py`, lines 50-64): dispatch
`update_qube` per target and fold `collect_result` over the results as the
tasks complete, starting from the initial `exit_code = 0`. -/
def run (results : List (String × Int × Payload)) : Int :=
  results.foldl collect_result 0

end UpdateManager

/-- Written from the spec's words (§4.3): with `force_color` true the
sanitizer's output is the lenient decode of the input, split into lines
that pass through unchanged. -/
def specColorSanitize (b : List Nat) : List (List Nat) :=
  splitlines (decodeAsciiIgnore b)

example : splitlines [0x61, 0x0a, 0x62] = [[0x61], [0x62]] := by decide
example : splitlines [0x61, 0x0a] = [[0x61]] := by decide
example : splitlines [0x0d, 0x0a] = [[]] := by decide
example : splitlines [0x0a, 0x0a] = [[], []] := by decide
example : splitlines [] = [] := by decide
example :
    QubeConnection._collect_output [0x1b, 0x5b, 0x33, 0x31, 0x6d, 0x41] [] false
      = [[0x5b, 0x33, 0x31, 0x6d, 0x41]] := by decide
example :
    QubeConnection._collect_output [0x00, 0x41] [0xff] false = [[0x41]] := by
  decide

/-! ## Aggregation of exit codes (Fleet Coordinator) -/

theorem le_foldl_collect (results : List (String × Int × Payload)) :
    ∀ a : Int, a ≤ results.foldl UpdateManager.collect_result a := by
  induction results with
  | nil => intro a; simp
  | cons r rs ih =>
    intro a
    exact le_trans (le_max_left a r.2.1) (ih _)

theorem mem_le_foldl_collect (results : List (String × Int × Payload)) :
    ∀ a : Int, ∀ r ∈ results, r.2.1 ≤ results.foldl UpdateManager.collect_result a := by
  induction results with
  | nil => intro a r hr; simp at hr
  | cons r rs ih =>
    intro a s hs
    rcases List.mem_cons.mp hs with hs | hs
    · subst hs
      exact le_trans (le_max_right a s.2.1) (le_foldl_collect rs _)
    · exact ih _ s hs

theorem foldl_collect_mem (results : List (String × Int × Payload)) :
    ∀ a : Int, results.foldl UpdateManager.collect_result a = a ∨
      ∃ r ∈ results, results.foldl UpdateManager.collect_result a = r.2.1 := by
  induction results with
  | nil => intro a; left; rfl
  | cons r rs ih =>
    intro a
    rcases ih (UpdateManager.collect_result a r) with h | ⟨s, hs, h⟩
    · by_cases hle : a ≤ r.2.1
      · right
        refine ⟨r, List.mem_cons_self r rs, ?_⟩
        simpa [UpdateManager.collect_result, max_eq_right hle] using h
      · left
        simpa [UpdateManager.collect_result,
          max_eq_left (le_of_not_le hle)] using h
    · exact Or.inr ⟨s, List.mem_cons_of_mem r hs, h⟩

/-- C1: for every fleet run, the Coordinator's aggregate exit code returned
by `run` equals the maximum of all collected per-target exit codes (0 when
there are no targets): it is 0 on the empty run and otherwise is one of
the collected codes and bounds all of them from above. -/
theorem run_aggregates_max (results : List (String × Int × Payload))
    (h : ∀ r ∈ results, 0 ≤ r.2.1) :
    (results = [] → UpdateManager.run results = 0) ∧
    (results ≠ [] →
      UpdateManager.run results ∈ results.map (fun r => r.2.1) ∧
      ∀ r ∈ results, r.2.1 ≤ UpdateManager.run results) := by
  constructor
  · intro h0; subst h0; rfl
  · intro hne
    constructor
    · rcases foldl_collect_mem results 0 with h0 | ⟨r, hr, heq⟩
      · rcases List.exists_mem_of_ne_nil results hne with ⟨r0, hr0⟩
        have hle : r0.2.1 ≤ UpdateManager.run results :=
          mem_le_foldl_collect results 0 r0 hr0
        have hrun : UpdateManager.run results = r0.2.1 := by
          have := h r0 hr0
          unfold UpdateManager.run at *
          omega
        rw [hrun]
        exact List.mem_map.mpr ⟨r0, hr0, rfl⟩
      · exact List.mem_map.mpr ⟨r, hr, heq.symm⟩
    · exact mem_le_foldl_collect results 0

/-- Witness for C1 at the claim's own example: per-target exit codes
`[0, 0, 3, 1]` yield aggregate exit code 3, which is the maximum. -/
theorem run_aggregates_max_example :
    UpdateManager.run
      [("a", (0 : Int), Payload.status "OK"), ("b", 0, Payload.status "OK"),
       ("c", 3, Payload.status "E"), ("d", 1, Payload.status "E")] ∈
      ([("a", (0 : Int), Payload.status "OK"), ("b", 0, Payload.status "OK"),
        ("c", 3, Payload.status "E"), ("d", 1, Payload.status "E")].map
        (fun r => r.2.1)) ∧
    UpdateManager.run
      [("a", (0 : Int), Payload.status "OK"), ("b", 0, Payload.status "OK"),
       ("c", 3, Payload.status "E"), ("d", 1, Payload.status "E")] = 3 :=
  ⟨((run_aggregates_max _ (by decide)).2 (by decide)).1, by decide⟩

/-! ## Sanitizer -/

theorem splitlinesGo_no_break :
    ∀ (s cur : List Nat), (∀ c ∈ cur, isBreak c = false) →
      ∀ line ∈ splitlinesGo s cur, ∀ c ∈ line, isBreak c = false := by
  intro s cur
  induction s, cur using splitlinesGo.induct with
  | case1 cur hemp =>
    intro h line hline
    simp [splitlinesGo, hemp] at hline
  | case2 cur hemp =>
    intro h line hline c hc
    simp [splitlinesGo, hemp] at hline
    subst hline
    exact h c (List.mem_reverse.mp hc)
  | case3 c0 cur hbr =>
    intro h line hline c hc
    simp [splitlinesGo, hbr] at hline
    subst hline
    exact h c (List.mem_reverse.mp hc)
  | case4 c0 cur hbr =>
    intro h line hline c hc
    simp [splitlinesGo, hbr] at hline
    subst hline
    rcases List.mem_append.mp hc with hc | hc
    · exact h c (List.mem_reverse.mp hc)
    · have hcc : c = c0 := by simpa using hc
      subst hcc
      simpa using hbr
  | case5 c0 d rest cur hcd ih =>
    intro h line hline c hc
    simp [splitlinesGo, hcd.1, hcd.2] at hline
    rcases hline with hline | hline
    · subst hline; exact h c (List.mem_reverse.mp hc)
    · exact ih (by simp) line hline c hc
  | case6 c0 d rest cur hcd hbr ih =>
    intro h line hline c hc
    simp [splitlinesGo, hcd, hbr] at hline
    rcases hline with hline | hline
    · subst hline; exact h c (List.mem_reverse.mp hc)
    · exact ih (by simp) line hline c hc
  | case7 c0 d rest cur hcd hbr ih =>
    intro h line hline c hc
    simp [splitlinesGo, hcd, hbr] at hline
    refine ih ?_ line hline c hc
    intro c' hc'
    rcases List.mem_cons.mp hc' with hc' | hc'
    · subst hc'; simpa using hbr
    · exact h c' hc'

theorem splitlines_no_break (s : List Nat) :
    ∀ line ∈ splitlines s, ∀ c ∈ line, isBreak c = false :=
  splitlinesGo_no_break s [] (by simp)

/-- C4: for every pair of untrusted stdout and stderr byte sequences, with
`force_color` false every character of every line returned by the
sanitizer lies in the printable ASCII range `[0x20, 0x7e]`, and each
returned line is exactly the corresponding unsanitized line with every
character outside that range removed. -/
theorem collect_output_printable (untrusted_stdout untrusted_stderr : List Nat) :
    ((QubeConnection._collect_output untrusted_stdout untrusted_stderr
        false).all (fun line => line.all printable)) = true ∧
    QubeConnection._collect_output untrusted_stdout untrusted_stderr false =
      (QubeConnection._collect_output untrusted_stdout untrusted_stderr
        true).map (fun line => line.filter printable) := by
  constructor
  · rw [List.all_eq_true]
    intro line hline
    rw [show QubeConnection._collect_output untrusted_stdout untrusted_stderr
          false
        = (splitlines (decodeAsciiIgnore untrusted_stdout ++
            decodeAsciiIgnore untrusted_stderr)).map
            (fun l => l.filter printable) from rfl] at hline
    obtain ⟨l0, hl0, rfl⟩ := List.mem_map.mp hline
    rw [List.all_eq_true]
    intro c hc
    exact List.of_mem_filter hc
  · rfl

/-- C5: the sanitizer is pure and total: it is a total function over all
byte sequences — including the empty sequence, non-UTF8 bytes and NUL
bytes, since its domain is all of `List Nat` — for either value of
`force_color`, and it returns an ordered sequence of text lines: no
returned line contains a line-break character, and empty input yields the
empty list of lines. -/
theorem collect_output_total_lines
    (untrusted_stdout untrusted_stderr : List Nat) (force_color : Bool) :
    ((QubeConnection._collect_output untrusted_stdout untrusted_stderr
        force_color).all (fun line => line.all (fun c => !(isBreak c))))
      = true ∧
    QubeConnection._collect_output [] [] force_color = [] := by
  constructor
  · rw [List.all_eq_true]
    intro line hline
    rw [List.all_eq_true]
    intro c hc
    cases force_color with
    | true =>
      rw [show QubeConnection._collect_output untrusted_stdout
            untrusted_stderr true
          = splitlines (decodeAsciiIgnore untrusted_stdout ++
              decodeAsciiIgnore untrusted_stderr) from rfl] at hline
      simpa using splitlines_no_break _ line hline c hc
    | false =>
      rw [show QubeConnection._collect_output untrusted_stdout
            untrusted_stderr false
          = (splitlines (decodeAsciiIgnore untrusted_stdout ++
              decodeAsciiIgnore untrusted_stderr)).map
              (fun l => l.filter printable) from rfl] at hline
      obtain ⟨l0, hl0, rfl⟩ := List.mem_map.mp hline
      simpa using splitlines_no_break _ l0 hl0 c (List.mem_of_mem_filter hc)
  · cases force_color <;> rfl

/-- C6: for every input byte sequence, with `force_color` true the
sanitizer's output is exactly the lenient decode of the input split into
lines, each passing through unchanged. -/
theorem collect_output_color_passthrough
    (untrusted_stdout untrusted_stderr : List Nat) :
    QubeConnection._collect_output untrusted_stdout untrusted_stderr true =
      specColorSanitize (untrusted_stdout ++ untrusted_stderr) := by
  simp [QubeConnection._collect_output, specColorSanitize, decodeAsciiIgnore,
    List.filter_append]

/-! ## VM Session lifecycle -/

theorem run_agent_fst (return_output force_color cleanup : Bool)
    (kwargs : AgentKwargs) (env : SessionEnv) (log_path : String) :
    (run_agent return_output force_color cleanup kwargs env log_path).1 =
      (runAgentBody return_output force_color kwargs env log_path).1 ++
      (QubeConnection.qubeConnectionExit cleanup env.was_running
        env.running_at_exit env.rmRes).1 := by
  unfold run_agent
  rcases h : QubeConnection.qubeConnectionExit cleanup env.was_running
      env.running_at_exit env.rmRes with ⟨exitTr, exitErr⟩
  cases exitErr <;> rfl

theorem run_agent_snd_of_exit_none (return_output force_color cleanup : Bool)
    (kwargs : AgentKwargs) (env : SessionEnv) (log_path : String)
    (h : (QubeConnection.qubeConnectionExit cleanup env.was_running
        env.running_at_exit env.rmRes).2 = none) :
    (run_agent return_output force_color cleanup kwargs env log_path).2 =
      (runAgentBody return_output force_color kwargs env log_path).2 := by
  unfold run_agent
  rcases hq : QubeConnection.qubeConnectionExit cleanup env.was_running
      env.running_at_exit env.rmRes with ⟨exitTr, exitErr⟩
  cases exitErr with
  | none => rfl
  | some e => simp [hq] at h

theorem run_entrypoint_no_shutdown (entrypoint_path : String)
    (force_color : Bool) (agent_args : AgentArgs)
    (chmodRes entryRes : CmdResult) :
    Action.shutdownVM ∉
      (QubeConnection.run_entrypoint entrypoint_path force_color agent_args
        chmodRes entryRes).1 := by
  cases chmodRes <;> cases entryRes <;>
    simp [QubeConnection.run_entrypoint,
      QubeConnection._run_shell_command_in_qube]

theorem runAgentEntry_no_shutdown (return_output force_color : Bool)
    (args : AgentArgs) (env : SessionEnv) (log_path : String) :
    Action.shutdownVM ∉
      (runAgentEntry return_output force_color args env log_path).1 := by
  unfold runAgentEntry
  rcases hre : QubeConnection.run_entrypoint entrypointPath force_color
      args env.chmodRes env.entryRes with ⟨tr, r⟩
  have hmem : Action.shutdownVM ∉ tr := by
    have := run_entrypoint_no_shutdown entrypointPath force_color
      args env.chmodRes env.entryRes
    rw [hre] at this
    exact this
  cases r <;> simpa using hmem

theorem runAgentBody_no_shutdown (return_output force_color : Bool)
    (kwargs : AgentKwargs) (env : SessionEnv) (log_path : String) :
    Action.shutdownVM ∉
      (runAgentBody return_output force_color kwargs env log_path).1 := by
  unfold runAgentBody
  cases htr : env.transferExc with
  | some e => simp
  | none =>
    cases kwargs with
    | log loglevel => simp
    | agent_args args =>
      exact runAgentEntry_no_shutdown return_output force_color args env log_path

theorem exit_no_shutdown_of_was_running (cleanup running_at_exit : Bool)
    (rmRes : CmdResult) :
    Action.shutdownVM ∉
      (QubeConnection.qubeConnectionExit cleanup true running_at_exit
        rmRes).1 := by
  cases cleanup <;> cases rmRes <;>
    simp [QubeConnection.qubeConnectionExit]

/-- C3: for every VM session, if the target VM reported
`is_running() == true` at session start, then the session never invokes
shutdown on that VM, on any exit path and regardless of the session's
outcome. -/
theorem no_shutdown_if_initially_running
    (return_output force_color cleanup : Bool) (kwargs : AgentKwargs)
    (env : SessionEnv) (log_path : String) (h : env.was_running = true) :
    Action.shutdownVM ∉
      (run_agent return_output force_color cleanup kwargs env
        log_path).1 := by
  rw [run_agent_fst]
  intro hmem
  rcases List.mem_append.mp hmem with hmem | hmem
  · exact runAgentBody_no_shutdown return_output force_color kwargs env
      log_path hmem
  · rw [h] at hmem
    exact exit_no_shutdown_of_was_running cleanup env.running_at_exit
      env.rmRes hmem

/-- Witness for C3: a concrete session over an initially-running VM, with
the kwargs the coordinator actually passes, never performs a shutdown. -/
theorem no_shutdown_if_initially_running_example :
    Action.shutdownVM ∉
      (run_agent true false true (AgentKwargs.log "INFO")
        ⟨true, true, none, CmdResult.ok [] [], CmdResult.ok [] [],
         CmdResult.ok [] []⟩ "/var/log/qubes/update-vm.log").1 :=
  no_shutdown_if_initially_running true false true (AgentKwargs.log "INFO")
    ⟨true, true, none, CmdResult.ok [] [], CmdResult.ok [] [],
     CmdResult.ok [] []⟩ "/var/log/qubes/update-vm.log" rfl

theorem run_entrypoint_no_removeDir (entrypoint_path : String)
    (force_color : Bool) (agent_args : AgentArgs)
    (chmodRes entryRes : CmdResult) :
    Action.removeDir ∉
      (QubeConnection.run_entrypoint entrypoint_path force_color agent_args
        chmodRes entryRes).1 := by
  cases chmodRes <;> cases entryRes <;>
    simp [QubeConnection.run_entrypoint,
      QubeConnection._run_shell_command_in_qube]

theorem runAgentEntry_no_removeDir (return_output force_color : Bool)
    (args : AgentArgs) (env : SessionEnv) (log_path : String) :
    Action.removeDir ∉
      (runAgentEntry return_output force_color args env log_path).1 := by
  unfold runAgentEntry
  rcases hre : QubeConnection.run_entrypoint entrypointPath force_color
      args env.chmodRes env.entryRes with ⟨tr, r⟩
  have hmem : Action.removeDir ∉ tr := by
    have := run_entrypoint_no_removeDir entrypointPath force_color
      args env.chmodRes env.entryRes
    rw [hre] at this
    exact this
  cases r <;> simpa using hmem

theorem runAgentBody_no_removeDir (return_output force_color : Bool)
    (kwargs : AgentKwargs) (env : SessionEnv) (log_path : String) :
    Action.removeDir ∉
      (runAgentBody return_output force_color kwargs env log_path).1 := by
  unfold runAgentBody
  cases htr : env.transferExc with
  | some e => simp
  | none =>
    cases kwargs with
    | log loglevel => simp
    | agent_args args =>
      exact runAgentEntry_no_removeDir return_output force_color args env log_path

theorem exit_count_removeDir (was_running running_at_exit : Bool)
    (rmRes : CmdResult) :
    (QubeConnection.qubeConnectionExit true was_running running_at_exit
      rmRes).1.count Action.removeDir = 1 := by
  cases rmRes <;>
    cases h : running_at_exit && !was_running <;>
    simp [QubeConnection.qubeConnectionExit, h, List.count_cons]

/-- C8: with cleanup enabled, removal of the transferred working directory
is attempted exactly once on every exit path of the session (the trace
contains exactly one `removeDir`, whether the body completed, the agent
failed, or the transfer or execution raised), and a `CalledProcessError`
failure of that removal is swallowed: the session's result — exit code and
all — is the same as when the removal succeeds. -/
theorem cleanup_once_and_nonfatal (return_output force_color : Bool)
    (kwargs : AgentKwargs) (env : SessionEnv) (log_path : String) :
    ((run_agent return_output force_color true kwargs env
        log_path).1.count Action.removeDir = 1) ∧
    (∀ (rc : Int) (rmOutput o1 o2 : List Nat),
      (run_agent return_output force_color true kwargs
        { env with rmRes := CmdResult.calledProcessError rc rmOutput }
        log_path).2 =
      (run_agent return_output force_color true kwargs
        { env with rmRes := CmdResult.ok o1 o2 } log_path).2) := by
  constructor
  · rw [run_agent_fst, List.count_append]
    rw [List.count_eq_zero.mpr
      (runAgentBody_no_removeDir return_output force_color kwargs env
        log_path)]
    rw [exit_count_removeDir env.was_running env.running_at_exit env.rmRes]
  · intro rc rmOutput o1 o2
    rw [run_agent_snd_of_exit_none return_output force_color true kwargs
        { env with rmRes := CmdResult.calledProcessError rc rmOutput }
        log_path rfl,
      run_agent_snd_of_exit_none return_output force_color true kwargs
        { env with rmRes := CmdResult.ok o1 o2 } log_path rfl]
    rfl

/-! ## Fleet Coordinator error isolation -/

/-- Helper shared by the error-isolation and dead-report theorems: if
`run_agent` (called as the coordinator calls it) raises, `update_qube`
converts the exception into the exit-code-1 triple. -/
theorem update_qube_of_run_agent_error (domains : String → Option SessionEnv)
    (show_output force_color cleanup : Bool)
    (loglevel log_path qname : String) (env : SessionEnv) (e : String)
    (hdom : domains qname = some env)
    (herr : (run_agent show_output force_color cleanup
        (AgentKwargs.log loglevel) env log_path).2 = Except.error e) :
    (update_qube domains show_output force_color cleanup loglevel log_path
        qname).2
      = (qname, 1, Payload.status ("ERROR (exception " ++ e ++ ")")) := by
  rcases hra : run_agent show_output force_color cleanup
      (AgentKwargs.log loglevel) env log_path with ⟨tr, r⟩
  rw [hra] at herr
  have hr : r = Except.error e := herr
  subst hr
  simp [update_qube, hdom, hra]

/-- C2: for every target, errors while running that target's session are
handled locally in `update_qube` and converted into a result triple: a
name that does not resolve yields `(qname, 2, "ERROR (qube not found)")`
with an empty session trace (no state-machine transitions attempted), and
an exception escaping the session yields exit code 1 with a diagnostic
message; in both cases `update_qube` returns a triple rather than
propagating. -/
theorem update_qube_isolates_errors (domains : String → Option SessionEnv)
    (show_output force_color cleanup : Bool) (loglevel : String)
    (log_path qname : String) :
    (domains qname = none →
      update_qube domains show_output force_color cleanup loglevel
        log_path qname
        = ([], (qname, 2, Payload.status "ERROR (qube not found)"))) ∧
    (∀ env e, domains qname = some env →
      (run_agent show_output force_color cleanup (AgentKwargs.log loglevel)
        env log_path).2 = Except.error e →
      (update_qube domains show_output force_color cleanup loglevel
        log_path qname).2
        = (qname, 1, Payload.status ("ERROR (exception " ++ e ++ ")"))) := by
  constructor
  · intro h
    simp [update_qube, h]
  · intro env e hdom herr
    exact update_qube_of_run_agent_error domains show_output force_color
      cleanup loglevel log_path qname env e hdom herr

/-- Witness for C2: a name resolving to no live VM yields exit code 2, the
"qube not found" diagnostic, and an empty session trace. -/
theorem update_qube_isolates_errors_example :
    update_qube (fun _ => none) true false true "INFO"
      "/var/log/qubes/update-vm.log" "no-such-qube"
      = ([], ("no-such-qube", 2, Payload.status "ERROR (qube not found)")) :=
  (update_qube_isolates_errors (fun _ => none) true false true "INFO"
    "/var/log/qubes/update-vm.log" "no-such-qube").1 rfl

/-! ## The broken run_entrypoint call site -/

theorem runAgentBody_log_of_transfer_none (return_output force_color : Bool)
    (loglevel : String) (env : SessionEnv) (log_path : String)
    (htr : env.transferExc = none) :
    runAgentBody return_output force_color (AgentKwargs.log loglevel) env
        log_path
      = ([Action.transferAgent], Except.error runEntrypointKwargError) := by
  unfold runAgentBody
  rw [htr]

theorem runAgentBody_log_of_transfer_some (return_output force_color : Bool)
    (loglevel : String) (env : SessionEnv) (log_path e : String)
    (htr : env.transferExc = some e) :
    runAgentBody return_output force_color (AgentKwargs.log loglevel) env
        log_path
      = ([Action.transferAgent], Except.error e) := by
  unfold runAgentBody
  rw [htr]

theorem run_agent_snd_of_exit_some (return_output force_color cleanup : Bool)
    (kwargs : AgentKwargs) (env : SessionEnv) (log_path e2 : String)
    (h : (QubeConnection.qubeConnectionExit cleanup env.was_running
        env.running_at_exit env.rmRes).2 = some e2) :
    (run_agent return_output force_color cleanup kwargs env log_path).2 =
      Except.error e2 := by
  unfold run_agent
  rcases hq : QubeConnection.qubeConnectionExit cleanup env.was_running
      env.running_at_exit env.rmRes with ⟨exitTr, exitErr⟩
  cases exitErr with
  | some x =>
    rw [hq] at h
    have hx : x = e2 := Option.some.inj h
    subst hx
    rfl
  | none => simp [hq] at h

theorem exit_no_runCommand (cleanup was_running running_at_exit : Bool)
    (rmRes : CmdResult) (argv : List String) :
    Action.runCommand argv ∉
      (QubeConnection.qubeConnectionExit cleanup was_running running_at_exit
        rmRes).1 := by
  cases cleanup <;> cases rmRes <;>
    cases h : running_at_exit && !was_running <;>
    simp [QubeConnection.qubeConnectionExit, h]

theorem run_agent_log_never_ok (return_output force_color cleanup : Bool)
    (loglevel : String) (env : SessionEnv) (log_path : String) :
    ∃ e, (run_agent return_output force_color cleanup
        (AgentKwargs.log loglevel) env log_path).2 = Except.error e := by
  cases hexit : (QubeConnection.qubeConnectionExit cleanup env.was_running
      env.running_at_exit env.rmRes).2 with
  | some e2 =>
    exact ⟨e2, run_agent_snd_of_exit_some return_output force_color cleanup
      (AgentKwargs.log loglevel) env log_path e2 hexit⟩
  | none =>
    rw [run_agent_snd_of_exit_none _ _ _ _ _ _ hexit]
    cases htr : env.transferExc with
    | some e =>
      exact ⟨e, by rw [runAgentBody_log_of_transfer_some _ _ _ _ _ _ htr]⟩
    | none =>
      exact ⟨runEntrypointKwargError,
        by rw [runAgentBody_log_of_transfer_none _ _ _ _ _ htr]⟩

/-- C7: the claim describes the intended agent interface, but the code
never realizes it.  `update_qube` forwards the keyword `log`
(`update_manager.py`, lines 106-107) through `run_agent`'s `**kwargs` to
`run_entrypoint`, whose declared parameters are `(entrypoint_path,
force_color, agent_args)` (`qube_connection.py`, line 108), so every
coordinator-dispatched session raises a `TypeError` right after the
transfer: when teardown itself does not raise, the session's outcome is
exactly that `TypeError`, and no command — in particular no entrypoint
invocation with the serialized argv — is ever issued in the qube. -/
theorem entrypoint_never_invoked (return_output force_color cleanup : Bool)
    (loglevel : String) (env : SessionEnv) (log_path : String)
    (htr : env.transferExc = none)
    (hexit : (QubeConnection.qubeConnectionExit cleanup env.was_running
        env.running_at_exit env.rmRes).2 = none) :
    (run_agent return_output force_color cleanup (AgentKwargs.log loglevel)
        env log_path).2 = Except.error runEntrypointKwargError ∧
    ∀ argv, Action.runCommand argv ∉
      (run_agent return_output force_color cleanup (AgentKwargs.log loglevel)
        env log_path).1 := by
  constructor
  · rw [run_agent_snd_of_exit_none _ _ _ _ _ _ hexit,
      runAgentBody_log_of_transfer_none _ _ _ _ _ htr]
  · intro argv hmem
    rw [run_agent_fst] at hmem
    rcases List.mem_append.mp hmem with hmem | hmem
    · rw [runAgentBody_log_of_transfer_none _ _ _ _ _ htr] at hmem
      simp at hmem
    · exact exit_no_runCommand cleanup env.was_running env.running_at_exit
        env.rmRes argv hmem

/-- Witness for C7: a concrete coordinator-style session, with the
transfer and all remote commands succeeding, fails with the keyword
`TypeError` instead of running the entrypoint. -/
theorem entrypoint_never_invoked_example :
    (run_agent false false true (AgentKwargs.log "INFO")
        ⟨true, true, none, CmdResult.ok [] [], CmdResult.ok [] [],
         CmdResult.ok [] []⟩ "/var/log/qubes/update-vm.log").2
      = Except.error runEntrypointKwargError :=
  (entrypoint_never_invoked false false true "INFO"
    ⟨true, true, none, CmdResult.ok [] [], CmdResult.ok [] [],
     CmdResult.ok [] []⟩ "/var/log/qubes/update-vm.log" rfl rfl).1

/-! ## Per-target report payload -/

/-- C9: the claim describes the report selection of `update_manager.py`
lines 169-174, but no session ever completes: through the program's only
call chain (`update_qube` passing `log=loglevel`), every resolvable
target's session raises, so the collected triple always carries exit
code 1 and an `"ERROR (exception ...)"` diagnostic — and on the path
where transfer and teardown behave it is precisely the `run_entrypoint`
keyword `TypeError`; neither `"OK"` nor a full-output list is ever
produced. -/
theorem per_target_report_unreachable (domains : String → Option SessionEnv)
    (show_output force_color cleanup : Bool)
    (loglevel log_path qname : String) (env : SessionEnv)
    (hdom : domains qname = some env) :
    (∃ e, (update_qube domains show_output force_color cleanup loglevel
        log_path qname).2
      = (qname, 1, Payload.status ("ERROR (exception " ++ e ++ ")"))) ∧
    (env.transferExc = none →
      (QubeConnection.qubeConnectionExit cleanup env.was_running
        env.running_at_exit env.rmRes).2 = none →
      (update_qube domains show_output force_color cleanup loglevel
        log_path qname).2
        = (qname, 1,
           Payload.status ("ERROR (exception " ++ runEntrypointKwargError
             ++ ")"))) := by
  constructor
  · obtain ⟨e, he⟩ := run_agent_log_never_ok show_output force_color cleanup
      loglevel env log_path
    exact ⟨e, update_qube_of_run_agent_error domains show_output force_color
      cleanup loglevel log_path qname env e hdom he⟩
  · intro htr hexit
    have he : (run_agent show_output force_color cleanup
        (AgentKwargs.log loglevel) env log_path).2
        = Except.error runEntrypointKwargError := by
      rw [run_agent_snd_of_exit_none _ _ _ _ _ _ hexit,
        runAgentBody_log_of_transfer_none _ _ _ _ _ htr]
    exact update_qube_of_run_agent_error domains show_output force_color
      cleanup loglevel log_path qname env runEntrypointKwargError hdom he

/-- Witness for C9: a concrete resolvable target whose session has every
remote command succeeding still reports exit code 1 with the keyword
`TypeError` diagnostic — never the `"OK"` / full-output report. -/
theorem per_target_report_unreachable_example :
    (update_qube
        (fun _ => some ⟨true, true, none, CmdResult.ok [] [],
          CmdResult.ok [] [], CmdResult.ok [] []⟩)
        true false true "INFO" "/var/log/qubes/update-vm.log" "vm").2
      = ("vm", 1,
         Payload.status ("ERROR (exception " ++ runEntrypointKwargError
           ++ ")")) :=
  (per_target_report_unreachable
    (fun _ => some ⟨true, true, none, CmdResult.ok [] [],
      CmdResult.ok [] [], CmdResult.ok [] []⟩)
    true false true "INFO" "/var/log/qubes/update-vm.log" "vm"
    ⟨true, true, none, CmdResult.ok [] [], CmdResult.ok [] [],
     CmdResult.ok [] []⟩ rfl).2 rfl rfl

/-! ## Failing remote commands -/

/-- C10: for every remote command failing with a `CalledProcessError`, the
command runner does not raise: it returns the error's return code paired
with the sanitized output of empty stdout and stderr — the empty line
list — so the failing command's actual output is discarded. -/
theorem shell_command_cpe_discards_output (rc : Int)
    (cmdOutput : List Nat) (force_color : Bool) :
    QubeConnection._run_shell_command_in_qube
        (CmdResult.calledProcessError rc cmdOutput) force_color
      = Except.ok (rc, ([] : List (List Nat))) ∧
    QubeConnection._collect_output [] [] force_color = [] := by
  cases force_color <;> exact ⟨rfl, rfl⟩

end VMUpdate
